import Mathlib

/-!
Verification of the Relaysim repository: a firmware-relay simulator
(Device state machine + scenario executor, per `spec.md`) together with its
TypeScript dashboard (`relaysim-dashboard/src`).  The backend core
(`relaysim/simulator`, `relaysim/runner`) is not present in the source tree,
so the Device and ScenarioExecutor below are modelled from the spec; the
dashboard definitions (`fetchJSON`, `getStateTransitions`, `getLogLevel`,
`getLogClass`) and the shared result types (`types.ts`) are translated
directly from the TypeScript source.
-/

namespace Relaysim

/-- From `types.ts`: `DeviceState = 'IDLE' | 'ACTIVE' | 'FAULT'`. -/
inductive DeviceState where
  | IDLE
  | ACTIVE
  | FAULT
deriving DecidableEq, Repr

/-- Modelled from the spec: `FaultType — enumerated variant:
overcurrent | overvoltage | temperature`. -/
inductive FaultType where
  | overcurrent
  | overvoltage
  | temperature
deriving DecidableEq, Repr

/-- Modelled from the spec: commands accepted by the Device
(`activate`, `reset`, `inject_fault(type)`), §4.1. -/
inductive Command where
  | activate
  | reset
  | inject_fault (ft : FaultType)
deriving DecidableEq, Repr

/-- Register / scenario values: numeric, boolean, the DeviceState
pseudo-register value, strings, or a two-element `[low, high]` range as used
by the `in_range` operator. -/
inductive Value where
  | vnum (n : Int)
  | vbool (b : Bool)
  | vstate (s : DeviceState)
  | vstr (s : String)
  | vrange (low high : Int)
deriving DecidableEq, Repr

/-- Modelled from the spec: the fixed register bank — `voltage`, `current`,
`frequency`, `temperature`, `trip_flag`, `status_word` (§3). -/
structure RegisterBank where
  voltage : Int
  current : Int
  frequency : Int
  temperature : Int
  status_word : Int
  trip_flag : Bool
deriving DecidableEq, Repr

/-- Modelled from the spec: simulated-delay configuration, "a fixed,
configurable duration (different for activate vs reset vs fault)" (§4.1). -/
structure DelayConfig where
  activate_ms : Nat
  reset_ms : Nat
  fault_ms : Nat
deriving DecidableEq, Repr

/-- Modelled from the spec: the Device — one DeviceState, one RegisterBank,
the recorded fault type, an append-only action log, and the delay table. -/
structure Device where
  state : DeviceState
  registers : RegisterBank
  fault_type : Option FaultType
  log : List String
  delays : DelayConfig
deriving DecidableEq, Repr

/-- Modelled from the spec: the error taxonomy of §7. -/
inductive DeviceError where
  | invalidStateTransition
  | readOnlyRegister
  | invalidValue
  | unknownRegister
  | assertionOperatorMismatch
  | invalidStep
deriving DecidableEq, Repr

/-- Human-readable name of each error kind, used in step messages. -/
def DeviceError.describe : DeviceError → String
  | .invalidStateTransition => "InvalidStateTransitionError"
  | .readOnlyRegister => "ReadOnlyRegisterError"
  | .invalidValue => "InvalidValueError"
  | .unknownRegister => "UnknownRegisterError"
  | .assertionOperatorMismatch => "AssertionOperatorMismatchError"
  | .invalidStep => "InvalidStepError"

def FaultType.name : FaultType → String
  | .overcurrent => "overcurrent"
  | .overvoltage => "overvoltage"
  | .temperature => "temperature"

def Command.name : Command → String
  | .activate => "activate"
  | .reset => "reset"
  | .inject_fault _ => "inject_fault"

/-- The transition table of spec §4.1, as written: which (current state,
command) pairs are legal. -/
def validTransition : DeviceState → Command → Bool
  | .IDLE, .activate => true
  | .ACTIVE, .reset => true
  | .IDLE, .inject_fault _ => true
  | .ACTIVE, .inject_fault _ => true
  | .FAULT, .reset => true
  | .IDLE, .reset => true
  | _, _ => false

/-- Modelled from the spec: `Device.command(action, fault_type?)` follows the
transition table of §4.1, appends one action-log entry on success, and fails
with `InvalidStateTransitionError` for every pair not in the table. -/
def Device.command (d : Device) (c : Command) : Except DeviceError Device :=
  match d.state, c with
  | .IDLE, .activate =>
      .ok { d with
              state := .ACTIVE,
              registers := { d.registers with status_word := 1 },
              log := d.log ++ ["command: activate"] }
  | .ACTIVE, .reset =>
      .ok { d with
              state := .IDLE,
              registers := { d.registers with status_word := 0 },
              log := d.log ++ ["command: reset"] }
  | .IDLE, .inject_fault ft =>
      .ok { d with
              state := .FAULT,
              registers := { d.registers with trip_flag := true, status_word := 2 },
              fault_type := some ft,
              log := d.log ++ ["command: inject_fault " ++ ft.name] }
  | .ACTIVE, .inject_fault ft =>
      .ok { d with
              state := .FAULT,
              registers := { d.registers with trip_flag := true, status_word := 2 },
              fault_type := some ft,
              log := d.log ++ ["command: inject_fault " ++ ft.name] }
  | .FAULT, .reset =>
      .ok { d with
              state := .IDLE,
              registers := { d.registers with trip_flag := false, status_word := 0 },
              fault_type := none,
              log := d.log ++ ["command: reset"] }
  | .IDLE, .reset =>
      .ok { d with log := d.log ++ ["command: reset"] }
  | _, _ => .error .invalidStateTransition

/-- Exception semantics at the call site: on error the caller keeps the old
device (no partial mutation is observable). -/
def Device.afterCommand (d : Device) (c : Command) : Device :=
  match d.command c with
  | .ok d2 => d2
  | .error _ => d

/-- Modelled from the spec: `Device.write(register, value)` — rejects unknown
names (`UnknownRegisterError`), the read-only `state`/`trip_flag`
(`ReadOnlyRegisterError`), and type mismatches (`InvalidValueError`);
otherwise updates the register and appends one log entry (§4.1). -/
def Device.write (d : Device) (reg : String) (v : Value) : Except DeviceError Device :=
  if reg = "state" ∨ reg = "trip_flag" then .error .readOnlyRegister
  else if reg = "voltage" then
    match v with
    | .vnum n => .ok { d with registers := { d.registers with voltage := n },
                              log := d.log ++ ["write voltage"] }
    | _ => .error .invalidValue
  else if reg = "current" then
    match v with
    | .vnum n => .ok { d with registers := { d.registers with current := n },
                              log := d.log ++ ["write current"] }
    | _ => .error .invalidValue
  else if reg = "frequency" then
    match v with
    | .vnum n => .ok { d with registers := { d.registers with frequency := n },
                              log := d.log ++ ["write frequency"] }
    | _ => .error .invalidValue
  else if reg = "temperature" then
    match v with
    | .vnum n => .ok { d with registers := { d.registers with temperature := n },
                              log := d.log ++ ["write temperature"] }
    | _ => .error .invalidValue
  else if reg = "status_word" then
    match v with
    | .vnum n => .ok { d with registers := { d.registers with status_word := n },
                              log := d.log ++ ["write status_word"] }
    | _ => .error .invalidValue
  else .error .unknownRegister

/-- Modelled from the spec: `Device.read(register)` returns the current value
including the two derived read-only registers (`state`, `trip_flag`). -/
def Device.read (d : Device) (reg : String) : Except DeviceError Value :=
  if reg = "state" then .ok (.vstate d.state)
  else if reg = "trip_flag" then .ok (.vbool d.registers.trip_flag)
  else if reg = "voltage" then .ok (.vnum d.registers.voltage)
  else if reg = "current" then .ok (.vnum d.registers.current)
  else if reg = "frequency" then .ok (.vnum d.registers.frequency)
  else if reg = "temperature" then .ok (.vnum d.registers.temperature)
  else if reg = "status_word" then .ok (.vnum d.registers.status_word)
  else .error .unknownRegister

/-- From `types.ts`: `status: 'pass' | 'fail' | 'error'` of a StepResult. -/
inductive Outcome where
  | pass
  | fail
  | error
deriving DecidableEq, Repr

/-- From `types.ts`: the `StepResult` interface — step number, step type,
outcome, message, structured details, elapsed duration. -/
structure StepResult where
  step_number : Nat
  step_type : String
  status : Outcome
  message : String
  details : List (String × Value)
  duration_ms : Nat
deriving DecidableEq, Repr

/-- From `types.ts`: `overall_status: 'running' | 'passed' | 'failed' | 'error'`. -/
inductive OverallStatus where
  | running
  | passed
  | failed
  | error
deriving DecidableEq, Repr

/-- From `types.ts`: the `RunResult` interface (timestamps as epoch
milliseconds). -/
structure RunResult where
  run_id : String
  scenario_name : String
  description : String
  start_time : Nat
  end_time : Option Nat
  duration_ms : Nat
  overall_status : OverallStatus
  error_message : Option String
  total_steps : Nat
  passed_steps : Nat
  failed_steps : Nat
  step_results : List StepResult
deriving DecidableEq, Repr

/-- Modelled from the spec: the assertion operators of §3. -/
inductive Operator where
  | equals
  | not_equals
  | greater_than
  | less_than
  | contains
  | in_range
deriving DecidableEq, Repr

/-- Modelled from the spec: `ScenarioStep` — the closed tagged variant
`Write | Command | Wait | Assert` of §3. -/
inductive ScenarioStep where
  | write (register : String) (value : Value)
  | command (action : Command)
  | wait (milliseconds : Int)
  | assert (register : String) (op : Operator) (expected : Value)
deriving DecidableEq, Repr

/-- Modelled from the spec: `Scenario` — name, description, ordered steps. -/
structure Scenario where
  name : String
  description : String
  steps : List ScenarioStep
deriving DecidableEq, Repr

/-- Modelled from the spec: operator semantics of §4.2.  `equals`/`not_equals`
use exact type-aware equality; `greater_than`/`less_than` need numeric
operands; `contains` needs string operands; `in_range` needs a numeric actual
and a two-element `[low, high]` expected — else `AssertionOperatorMismatchError`. -/
def evalOperator (op : Operator) (actual expected : Value) : Except DeviceError Bool :=
  match op with
  | .equals => .ok (actual = expected)
  | .not_equals => .ok (actual ≠ expected)
  | .greater_than =>
      match actual, expected with
      | .vnum a, .vnum e => .ok (e < a)
      | _, _ => .error .assertionOperatorMismatch
  | .less_than =>
      match actual, expected with
      | .vnum a, .vnum e => .ok (a < e)
      | _, _ => .error .assertionOperatorMismatch
  | .contains =>
      match actual, expected with
      | .vstr a, .vstr e => .ok (e.toList <:+: a.toList)
      | _, _ => .error .assertionOperatorMismatch
  | .in_range =>
      match actual, expected with
      | .vnum a, .vrange low high => .ok (low ≤ a ∧ a ≤ high)
      | _, _ => .error .assertionOperatorMismatch

def Operator.name : Operator → String
  | .equals => "equals"
  | .not_equals => "not_equals"
  | .greater_than => "greater_than"
  | .less_than => "less_than"
  | .contains => "contains"
  | .in_range => "in_range"

/-- Simulated delay consumed by a command, from the device delay table. -/
def commandDelay (d : Device) : Command → Nat
  | .activate => d.delays.activate_ms
  | .reset => d.delays.reset_ms
  | .inject_fault _ => d.delays.fault_ms

/-- Modelled from the spec: executing one step against the device (§4.2).
`Write`: device error becomes outcome `error`, else `pass`.  `Command`:
device error (`InvalidStateTransitionError`) becomes `error`.  `Wait`:
`pass` unless the duration is negative (`error`).  `Assert`: read, apply the
operator; `pass`/`fail` on a verdict, `error` on operator/register mismatch. -/
def execStep (d : Device) (n : Nat) : ScenarioStep → StepResult × Device
  | .write reg v =>
      match d.write reg v with
      | .ok d2 =>
          ({ step_number := n, step_type := "write", status := .pass,
             message := "wrote " ++ reg,
             details := [("register", .vstr reg), ("value", v)],
             duration_ms := 0 }, d2)
      | .error e =>
          ({ step_number := n, step_type := "write", status := .error,
             message := e.describe,
             details := [("register", .vstr reg), ("value", v)],
             duration_ms := 0 }, d)
  | .command c =>
      match d.command c with
      | .ok d2 =>
          ({ step_number := n, step_type := "command", status := .pass,
             message := "command " ++ c.name,
             details := [("action", .vstr c.name)],
             duration_ms := commandDelay d c }, d2)
      | .error e =>
          ({ step_number := n, step_type := "command", status := .error,
             message := e.describe,
             details := [("action", .vstr c.name)],
             duration_ms := 0 }, d)
  | .wait ms =>
      if ms < 0 then
        ({ step_number := n, step_type := "wait", status := .error,
           message := DeviceError.invalidStep.describe,
           details := [("duration_ms", .vnum ms)],
           duration_ms := 0 }, d)
      else
        ({ step_number := n, step_type := "wait", status := .pass,
           message := "waited",
           details := [("duration_ms", .vnum ms)],
           duration_ms := ms.toNat }, d)
  | .assert reg op expected =>
      match d.read reg with
      | .error e =>
          ({ step_number := n, step_type := "assert", status := .error,
             message := e.describe,
             details := [("register", .vstr reg), ("operator", .vstr op.name),
                         ("expected", expected)],
             duration_ms := 0 }, d)
      | .ok actual =>
          match evalOperator op actual expected with
          | .error e =>
              ({ step_number := n, step_type := "assert", status := .error,
                 message := e.describe,
                 details := [("register", .vstr reg), ("operator", .vstr op.name),
                             ("expected", expected), ("actual", actual)],
                 duration_ms := 0 }, d)
          | .ok true =>
              ({ step_number := n, step_type := "assert", status := .pass,
                 message := "assert " ++ reg ++ " " ++ op.name ++ " ok",
                 details := [("register", .vstr reg), ("operator", .vstr op.name),
                             ("expected", expected), ("actual", actual)],
                 duration_ms := 0 }, d)
          | .ok false =>
              ({ step_number := n, step_type := "assert", status := .fail,
                 message := "assert " ++ reg ++ " " ++ op.name ++ " failed",
                 details := [("register", .vstr reg), ("operator", .vstr op.name),
                             ("expected", expected), ("actual", actual)],
                 duration_ms := 0 }, d)

/-- Modelled from the spec: the strict early-exit step loop of §4.2 — on the
first step whose outcome is `fail` or `error`, execution stops immediately;
the pair returned is the recorded StepResults and the terminal overall
outcome. -/
def runSteps (d : Device) (n : Nat) : List ScenarioStep → List StepResult × OverallStatus
  | [] => ([], .passed)
  | s :: rest =>
      let (r, d2) := execStep d n s
      match r.status with
      | .pass =>
          let (rs, o) := runSteps d2 (n + 1) rest
          (r :: rs, o)
      | .fail => ([r], .failed)
      | .error => ([r], .error)

/-- Modelled from the spec: the fresh mutable accumulator — "beginning a
fresh RunResult in state `running` with `start_time = now`" (§4.2). -/
def initRunResult (sc : Scenario) (startTime : Nat) : RunResult :=
  { run_id := sc.name ++ "-run",
    scenario_name := sc.name,
    description := sc.description,
    start_time := startTime,
    end_time := none,
    duration_ms := 0,
    overall_status := .running,
    error_message := none,
    total_steps := 0,
    passed_steps := 0,
    failed_steps := 0,
    step_results := [] }

/-- Modelled from the spec: `ScenarioExecutor.run(scenario, device)` — walks
the steps from the fresh accumulator, sets the terminal outcome and
`end_time` at termination, and counts total/passed/failed steps (§4.2). -/
def run (sc : Scenario) (d : Device) (startTime : Nat) : RunResult :=
  let init := initRunResult sc startTime
  let (results, o) := runSteps d 1 sc.steps
  let elapsed := results.foldl (fun acc r => acc + r.duration_ms) 0
  { init with
      overall_status := o,
      end_time := some (startTime + elapsed),
      duration_ms := elapsed,
      error_message :=
        if o = .error then some "scenario execution error" else none,
      total_steps := results.length,
      passed_steps := (results.filter (fun r => r.status = .pass)).length,
      failed_steps := (results.filter (fun r => r.status ≠ .pass)).length,
      step_results := results }

/-- From `types.ts`: the `DeviceStatus` interface — state, registers
snapshot, fault flag/type, log entry count. -/
structure DeviceStatus where
  state : DeviceState
  registers : RegisterBank
  fault_active : Bool
  fault_type : Option FaultType
  log_count : Nat
deriving DecidableEq, Repr

/-- Modelled from the spec: `Device.status()` — "(state, registers snapshot,
fault flag/type, log entry count)" (§6). -/
def Device.status (d : Device) : DeviceStatus :=
  { state := d.state,
    registers := d.registers,
    fault_active := d.registers.trip_flag,
    fault_type := d.fault_type,
    log_count := d.log.length }

/-! ### Dashboard API client (`relaysim-dashboard/src/api/client.ts`) -/

/-- From `client.ts`: `class APIError extends Error` with a message, an
optional HTTP status, and `name = 'APIError'`. -/
structure APIError where
  name : String
  message : String
  status : Option Nat
deriving DecidableEq, Repr

/-- The possible outcomes of the `fetch` call inside `fetchJSON`: a response
(ok flag, HTTP status code, status text, and the result of parsing the body
as JSON) or a thrown failure (network error, etc.) carrying a message. -/
inductive FetchResult (T : Type) where
  | response (ok : Bool) (status : Nat) (statusText : String) (body : Except String T)
  | failure (msg : String)

/-- From `client.ts`: `fetchJSON` — a non-ok response throws
`APIError('API request failed: ' + statusText, status)`; that APIError is
re-thrown by the catch block unchanged; any other thrown error (network
failure, JSON parse error) is wrapped as
`APIError('Network error: ' + message)` with no status. -/
def fetchJSON {T : Type} (fr : FetchResult T) : Except APIError T :=
  match fr with
  | .response ok status statusText body =>
      if ok then
        match body with
        | .ok v => .ok v
        | .error msg =>
            .error { name := "APIError", message := "Network error: " ++ msg,
                     status := none }
      else
        .error { name := "APIError",
                 message := "API request failed: " ++ statusText,
                 status := some status }
  | .failure msg =>
      .error { name := "APIError", message := "Network error: " ++ msg,
               status := none }

/-- From `types.ts`: the `ScenarioInfo` interface. -/
structure ScenarioInfo where
  name : String
  description : String
  filename : String
deriving DecidableEq, Repr

/-- From `client.ts`: `api.getScenarios()` is a direct `fetchJSON` call. -/
def apiGetScenarios (fr : FetchResult (List ScenarioInfo)) :
    Except APIError (List ScenarioInfo) := fetchJSON fr

/-- From `client.ts`: `api.runScenario(name)` is a direct `fetchJSON` call. -/
def apiRunScenario (fr : FetchResult RunResult) : Except APIError RunResult :=
  fetchJSON fr

/-- From `client.ts`: `api.getAllRuns()` is a direct `fetchJSON` call. -/
def apiGetAllRuns (fr : FetchResult (List RunResult)) :
    Except APIError (List RunResult) := fetchJSON fr

/-- From `client.ts`: `api.getRun(id)` is a direct `fetchJSON` call. -/
def apiGetRun (fr : FetchResult RunResult) : Except APIError RunResult :=
  fetchJSON fr

/-- From `client.ts`: `api.deleteRun(id)` awaits `fetchJSON` and discards the
parsed body. -/
def apiDeleteRun (fr : FetchResult Unit) : Except APIError Unit :=
  (fetchJSON fr).map (fun _ => ())

/-- From `client.ts`: `api.clearAllRuns()` awaits `fetchJSON` and discards
the parsed body. -/
def apiClearAllRuns (fr : FetchResult Unit) : Except APIError Unit :=
  (fetchJSON fr).map (fun _ => ())

/-- From `client.ts`: `api.getDeviceStatus()` is a direct `fetchJSON` call. -/
def apiGetDeviceStatus (fr : FetchResult DeviceStatus) :
    Except APIError DeviceStatus := fetchJSON fr

/-! ### DeviceStateVisualizer (`DeviceStateVisualizer.tsx`) -/

/-- From `DeviceStateVisualizer.tsx`, loop body of `getStateTransitions`:
for a step with `step_type === 'command'`, the state pushed according to
`step.details.action` (`activate → ACTIVE`, `reset → IDLE`,
`inject_fault → FAULT`); nothing pushed otherwise. -/
def stepPushedState (step : StepResult) : Option DeviceState :=
  if step.step_type = "command" then
    if step.details.lookup "action" = some (.vstr "activate") then some .ACTIVE
    else if step.details.lookup "action" = some (.vstr "reset") then some .IDLE
    else if step.details.lookup "action" = some (.vstr "inject_fault") then some .FAULT
    else none
  else none

/-- From `DeviceStateVisualizer.tsx`: `getStateTransitions` — `['IDLE']` when
`runResult` is null, else starting from `['IDLE']` each command step pushes
the state derived from `details.action`. -/
def getStateTransitions (runResult : Option RunResult) : List DeviceState :=
  match runResult with
  | none => [.IDLE]
  | some r =>
      r.step_results.foldl
        (fun states step =>
          match stepPushedState step with
          | some s => states ++ [s]
          | none => states)
        [.IDLE]

/-- From `DeviceStateVisualizer.tsx`: `getCurrentState` —
`transitions[transitions.length - 1]`, i.e. the last element of the
transitions array (`none` models the out-of-bounds `undefined`). -/
def getCurrentState (runResult : Option RunResult) : Option DeviceState :=
  (getStateTransitions runResult).getLast?

/-! ### LogViewer (`LogViewer.tsx`, packaged with `client.ts`) -/

/-- From `LogViewer.tsx`: `getLogLevel` — `'INFO'` for status `'pass'`,
`'ERROR'` for `'fail'`, `'WARN'` for everything else. -/
def getLogLevel (step : StepResult) : String :=
  if step.status = .pass then "INFO"
  else if step.status = .fail then "ERROR"
  else "WARN"

/-- From `LogViewer.tsx`: `getLogClass` — `'log-entry log-info'` for status
`'pass'`, `'log-entry log-error'` for `'fail'`, `'log-entry log-warn'` for
everything else. -/
def getLogClass (step : StepResult) : String :=
  if step.status = .pass then "log-entry log-info"
  else if step.status = .fail then "log-entry log-error"
  else "log-entry log-warn"

/-! ### Concrete fixtures used by witnesses -/

/-- A freshly constructed device: `IDLE`, registers at defaults, no fault,
empty log, a fixed delay table. -/
def defaultDevice : Device :=
  { state := .IDLE,
    registers := { voltage := 120, current := 5, frequency := 60,
                   temperature := 25, status_word := 0, trip_flag := false },
    fault_type := none,
    log := [],
    delays := { activate_ms := 100, reset_ms := 50, fault_ms := 10 } }

/-! ### Theorems -/

/-- C2: for every (state, command) pair not listed in the transition table of
spec §4.1, the command fails with `InvalidStateTransitionError` and the
device is left unchanged (no partial transition on error). -/
theorem c2_invalid_transition_rejected (d : Device) (c : Command)
    (h : validTransition d.state c = false) :
    d.command c = .error .invalidStateTransition ∧ d.afterCommand c = d := by
  cases hs : d.state <;> cases c <;>
    simp_all [validTransition, Device.command, Device.afterCommand]

/-- Witness for C2: `activate` while already `ACTIVE` is rejected and the
device is unchanged. -/
theorem c2_invalid_transition_rejected_witness :
    ({ defaultDevice with state := .ACTIVE } : Device).command .activate
        = .error .invalidStateTransition ∧
    ({ defaultDevice with state := .ACTIVE } : Device).afterCommand .activate
        = { defaultDevice with state := .ACTIVE } :=
  c2_invalid_transition_rejected { defaultDevice with state := .ACTIVE }
    .activate (by decide)

/-- C3: `inject_fault` from `IDLE` or `ACTIVE` always succeeds, yielding
state `FAULT`, `trip_flag = true` and the fault type recorded, for every
register bank (independence from register values). -/
theorem c3_inject_fault_unconditional (d : Device) (ft : FaultType)
    (h : d.state = .IDLE ∨ d.state = .ACTIVE) :
    ∃ d2, d.command (.inject_fault ft) = .ok d2 ∧
      d2.state = .FAULT ∧ d2.registers.trip_flag = true ∧
      d2.fault_type = some ft := by
  rcases h with h | h <;>
    refine ⟨{ d with
              state := .FAULT,
              registers := { d.registers with trip_flag := true, status_word := 2 },
              fault_type := some ft,
              log := d.log ++ ["command: inject_fault " ++ ft.name] },
            ?_, rfl, rfl, rfl⟩ <;>
    simp [Device.command, h]

/-- Witness for C3: injecting an overcurrent fault on the fresh device. -/
theorem c3_inject_fault_unconditional_witness :
    ∃ d2, defaultDevice.command (.inject_fault .overcurrent) = .ok d2 ∧
      d2.state = .FAULT ∧ d2.registers.trip_flag = true ∧
      d2.fault_type = some .overcurrent :=
  c3_inject_fault_unconditional defaultDevice .overcurrent (Or.inl rfl)

/-- The step loop never returns the accumulator state `running`. -/
lemma runSteps_ne_running (steps : List ScenarioStep) :
    ∀ d n, (runSteps d n steps).2 ≠ OverallStatus.running := by
  induction steps with
  | nil => intro d n; simp [runSteps]
  | cons s rest ih =>
      intro d n
      simp only [runSteps]
      rcases hx : execStep d n s with ⟨r, d2⟩
      cases hr : r.status <;> simp [hr]
      have := ih d2 (n + 1)
      rcases hy : runSteps d2 (n + 1) rest with ⟨rs, o⟩
      simpa [hy] using this

/-- C5: every returned RunResult has overall outcome in
`{passed, failed, error}` — never `running`; `running` occurs only in the
fresh accumulator built at the start of execution. -/
theorem c5_terminal_overall_status (sc : Scenario) (d : Device) (t : Nat) :
    ((run sc d t).overall_status = .passed ∨
     (run sc d t).overall_status = .failed ∨
     (run sc d t).overall_status = .error) ∧
    (initRunResult sc t).overall_status = .running := by
  constructor
  · have h := runSteps_ne_running sc.steps d 1
    have hs : (run sc d t).overall_status = (runSteps d 1 sc.steps).2 := by
      simp [run]
    rw [hs]
    cases hv : (runSteps d 1 sc.steps).2 <;> simp_all
  · rfl

/-- C4: two-run determinism — running the same scenario on the same fresh
device at two different wall-clock start times yields identical StepResult
sequences (in particular identical outcomes and messages in order) and the
same overall outcome; only the timestamps of the RunResult differ. -/
theorem c4_two_run_determinism (sc : Scenario) (d : Device) (t1 t2 : Nat) :
    (run sc d t1).step_results = (run sc d t2).step_results ∧
    (run sc d t1).step_results.map (fun r => (r.status, r.message))
      = (run sc d t2).step_results.map (fun r => (r.status, r.message)) ∧
    (run sc d t1).overall_status = (run sc d t2).overall_status :=
  ⟨rfl, rfl, rfl⟩

/-- Stated from the spec's words (§4.2 failure policy): the overall outcome
is `error` if the stopping (= last recorded) step's outcome was `error`,
`failed` if it was `fail`, else `passed`. -/
def specOverall (results : List StepResult) : OverallStatus :=
  match results.getLast? with
  | none => .passed
  | some r =>
      match r.status with
      | .pass => .passed
      | .fail => .failed
      | .error => .error

/-- Unfolding equation for `runSteps` on a non-empty step list. -/
lemma runSteps_cons (d : Device) (n : Nat) (s : ScenarioStep)
    (rest : List ScenarioStep) :
    runSteps d n (s :: rest) =
      match (execStep d n s).1.status with
      | .pass => ((execStep d n s).1 :: (runSteps (execStep d n s).2 (n + 1) rest).1,
                  (runSteps (execStep d n s).2 (n + 1) rest).2)
      | .fail => ([(execStep d n s).1], .failed)
      | .error => ([(execStep d n s).1], .error) := by
  rcases hx : execStep d n s with ⟨r, d2⟩
  simp [runSteps, hx]

/-- The step loop records at least one result for a non-empty step list. -/
lemma runSteps_fst_ne_nil (d : Device) (n : Nat) (s : ScenarioStep)
    (rest : List ScenarioStep) : (runSteps d n (s :: rest)).1 ≠ [] := by
  rw [runSteps_cons]
  cases (execStep d n s).1.status <;> simp

/-- The step loop never records more results than there are steps. -/
lemma runSteps_length_le (steps : List ScenarioStep) :
    ∀ d n, (runSteps d n steps).1.length ≤ steps.length := by
  induction steps with
  | nil => intro d n; simp [runSteps]
  | cons s rest ih =>
      intro d n
      rw [runSteps_cons]
      cases (execStep d n s).1.status <;> simp
      exact ih (execStep d n s).2 (n + 1)

/-- Every recorded result before the last one has outcome `pass`. -/
lemma runSteps_dropLast_pass (steps : List ScenarioStep) :
    ∀ d n x, x ∈ (runSteps d n steps).1.dropLast → x.status = .pass := by
  induction steps with
  | nil => intro d n x hx; simp [runSteps] at hx
  | cons s rest ih =>
      intro d n x hx
      rw [runSteps_cons] at hx
      cases hr : (execStep d n s).1.status <;> rw [hr] at hx <;> simp at hx
      rcases hq : (runSteps (execStep d n s).2 (n + 1) rest).1 with _ | ⟨y, ys⟩
      · rw [hq] at hx; simp at hx
      · rw [hq] at hx
        rw [List.dropLast_cons₂] at hx
        rcases List.mem_cons.mp hx with hx | hx
        · rw [hx]; exact hr
        · exact ih (execStep d n s).2 (n + 1) x (by rw [hq]; exact hx)

/-- The terminal outcome of the step loop is exactly the spec's rule applied
to the recorded results. -/
lemma runSteps_overall_eq (steps : List ScenarioStep) :
    ∀ d n, (runSteps d n steps).2 = specOverall (runSteps d n steps).1 := by
  induction steps with
  | nil => intro d n; simp [runSteps, specOverall]
  | cons s rest ih =>
      intro d n
      rw [runSteps_cons]
      cases hr : (execStep d n s).1.status <;> simp [specOverall, hr]
      rcases hq : (runSteps (execStep d n s).2 (n + 1) rest).1 with _ | ⟨y, ys⟩
      · have := ih (execStep d n s).2 (n + 1)
        rw [hq] at this
        simpa [specOverall, hr] using this
      · have := ih (execStep d n s).2 (n + 1)
        rw [hq] at this
        simpa [specOverall, List.getLast?_cons_cons] using this

/-- If every recorded result passed, the loop ran the whole step list. -/
lemma runSteps_all_pass_length (steps : List ScenarioStep) :
    ∀ d n, (∀ x ∈ (runSteps d n steps).1, x.status = .pass) →
      (runSteps d n steps).1.length = steps.length := by
  induction steps with
  | nil => intro d n _; simp [runSteps]
  | cons s rest ih =>
      intro d n hall
      rw [runSteps_cons] at hall ⊢
      cases hr : (execStep d n s).1.status
      · rw [hr] at hall
        simp only [List.forall_mem_cons, List.length_cons] at hall ⊢
        simp [ih (execStep d n s).2 (n + 1) hall.2]
      · rw [hr] at hall
        simp [hr] at hall
      · rw [hr] at hall
        simp [hr] at hall

/-- C1: strict early-exit failure policy — no more results than steps are
recorded, every recorded result before the last passed (so execution stopped
at the first `fail`/`error` and later steps are absent), the overall outcome
follows the spec rule applied to the stopping step (`error` ↦ `error`,
`fail` ↦ `failed`, else `passed`), `passed` entails that every step passed
and that all steps ran, and a scenario whose first step fails yields exactly
one StepResult with overall outcome `failed`. -/
theorem c1_early_exit_policy (sc : Scenario) (d : Device) (t : Nat) :
    (run sc d t).step_results.length ≤ sc.steps.length ∧
    (∀ x ∈ (run sc d t).step_results.dropLast, x.status = .pass) ∧
    (run sc d t).overall_status = specOverall (run sc d t).step_results ∧
    ((run sc d t).overall_status = .passed →
        (∀ x ∈ (run sc d t).step_results, x.status = .pass) ∧
        (run sc d t).step_results.length = sc.steps.length) ∧
    (∀ s rest, sc.steps = s :: rest → (execStep d 1 s).1.status = .fail →
        (run sc d t).step_results = [(execStep d 1 s).1] ∧
        (run sc d t).overall_status = .failed) := by
  have hres : (run sc d t).step_results = (runSteps d 1 sc.steps).1 := rfl
  have hov : (run sc d t).overall_status = (runSteps d 1 sc.steps).2 := rfl
  have hall : (run sc d t).overall_status = .passed →
      ∀ x ∈ (run sc d t).step_results, x.status = .pass := by
    intro hp x hx
    rw [hres] at hx
    rcases hq : (runSteps d 1 sc.steps).1 with _ | ⟨y, ys⟩
    · rw [hq] at hx; simp at hx
    · have hne : (runSteps d 1 sc.steps).1 ≠ [] := by rw [hq]; simp
      have hso : specOverall (runSteps d 1 sc.steps).1 = .passed := by
        rw [← runSteps_overall_eq, ← hov]; exact hp
      have hlast : ((runSteps d 1 sc.steps).1.getLast hne).status = .pass := by
        rw [specOverall, List.getLast?_eq_getLast_of_ne_nil hne] at hso
        cases hst : ((runSteps d 1 sc.steps).1.getLast hne).status
        · rfl
        · simp [hst] at hso
        · simp [hst] at hso
      have hsplit := List.dropLast_append_getLast hne
      rw [← hsplit] at hx
      rcases List.mem_append.mp hx with hx | hx
      · exact runSteps_dropLast_pass sc.steps d 1 x hx
      · have hxeq : x = (runSteps d 1 sc.steps).1.getLast hne := by
          simpa using hx
        rw [hxeq]; exact hlast
  refine ⟨?_, ?_, ?_, ?_, ?_⟩
  · rw [hres]; exact runSteps_length_le sc.steps d 1
  · intro x hx; rw [hres] at hx
    exact runSteps_dropLast_pass sc.steps d 1 x hx
  · rw [hres, hov]; exact runSteps_overall_eq sc.steps d 1
  · intro hp
    refine ⟨hall hp, ?_⟩
    rw [hres]
    exact runSteps_all_pass_length sc.steps d 1
      (fun x hx => hall hp x (by rw [hres]; exact hx))
  · intro s rest hsc hfail
    rw [hres, hov, hsc, runSteps_cons, hfail]
    exact ⟨rfl, rfl⟩

/-- A scenario whose first step fails on the fresh device: the default
voltage of 120 is not greater than 1000 (spec §8's concrete example). -/
def failScenario : Scenario :=
  { name := "voltage-too-low",
    description := "first assertion fails",
    steps := [.assert "voltage" .greater_than (.vnum 1000),
              .write "current" (.vnum 1)] }

/-- Witness for C1: the first-step-fails scenario from spec §8 yields exactly
one StepResult and overall outcome `failed`. -/
theorem c1_early_exit_policy_witness :
    (run failScenario defaultDevice 0).step_results
        = [(execStep defaultDevice 1
              (.assert "voltage" .greater_than (.vnum 1000))).1] ∧
    (run failScenario defaultDevice 0).overall_status = .failed :=
  (c1_early_exit_policy failScenario defaultDevice 0).2.2.2.2
    (.assert "voltage" .greater_than (.vnum 1000))
    [.write "current" (.vnum 1)] rfl (by decide)

/-- C6: a StepResult carries exactly a step number, a step type, an outcome
that is one of `pass`, `fail`, `error` and nothing else, a message, a
structured detail payload, and an elapsed duration — the record is fully
determined by those six fields. -/
theorem c6_step_result_shape (s : StepResult) :
    (s.status = .pass ∨ s.status = .fail ∨ s.status = .error) ∧
    s = { step_number := s.step_number, step_type := s.step_type,
          status := s.status, message := s.message, details := s.details,
          duration_ms := s.duration_ms } := by
  refine ⟨?_, rfl⟩
  cases s.status
  · exact Or.inl rfl
  · exact Or.inr (Or.inl rfl)
  · exact Or.inr (Or.inr rfl)

/-- C7: `Device.status()` exposes exactly the current state, a snapshot of
the registers, the fault flag and fault type, and the log entry count; the
exposed state is always one of the enumerated variants `IDLE`, `ACTIVE`,
`FAULT`, and the DeviceStatus record is fully determined by those five
fields. -/
theorem c7_device_status_shape (d : Device) :
    (d.status.state = d.state ∧
     d.status.registers = d.registers ∧
     d.status.fault_active = d.registers.trip_flag ∧
     d.status.fault_type = d.fault_type ∧
     d.status.log_count = d.log.length) ∧
    (d.status.state = .IDLE ∨ d.status.state = .ACTIVE ∨
     d.status.state = .FAULT) ∧
    d.status = { state := d.status.state, registers := d.status.registers,
                 fault_active := d.status.fault_active,
                 fault_type := d.status.fault_type,
                 log_count := d.status.log_count } := by
  refine ⟨⟨rfl, rfl, rfl, rfl, rfl⟩, ?_, rfl⟩
  cases h : d.status.state
  · exact Or.inl rfl
  · exact Or.inr (Or.inl rfl)
  · exact Or.inr (Or.inr rfl)

/-- C10: the LogViewer renders status `pass` at level `INFO` (class
`log-info`), status `fail` at level `ERROR` (class `log-error`), and every
other status — in particular `error` — at level `WARN` (class `log-warn`). -/
theorem c10_log_level_partition (s : StepResult) :
    (getLogLevel s = "INFO" ↔ s.status = .pass) ∧
    (getLogLevel s = "ERROR" ↔ s.status = .fail) ∧
    (getLogLevel s = "WARN" ↔ s.status = .error) ∧
    (getLogClass s = "log-entry log-info" ↔ s.status = .pass) ∧
    (getLogClass s = "log-entry log-error" ↔ s.status = .fail) ∧
    (getLogClass s = "log-entry log-warn" ↔ s.status = .error) := by
  cases h : s.status <;>
    simp [getLogLevel, getLogClass, h]

/-- C8: every rejection of `fetchJSON` is an `APIError`; a non-ok response
yields an APIError carrying that response's status code and
`API request failed: <statusText>`; a thrown network failure or a JSON parse
failure is wrapped as an APIError whose message begins with
`Network error:` and carries no status; and every method of the exported
`api` object delegates to `fetchJSON`, so no other failure shape escapes. -/
theorem c8_api_rejects_only_apierror {T : Type} (fr : FetchResult T) :
    (∀ e, fetchJSON fr = .error e → e.name = "APIError") ∧
    (∀ st stext body, fr = .response false st stext body →
        fetchJSON fr = .error { name := "APIError",
                                message := "API request failed: " ++ stext,
                                status := some st }) ∧
    (∀ msg, fr = .failure msg →
        fetchJSON fr = .error { name := "APIError",
                                message := "Network error: " ++ msg,
                                status := none }) ∧
    (∀ st stext msg, fr = .response true st stext (.error msg) →
        fetchJSON fr = .error { name := "APIError",
                                message := "Network error: " ++ msg,
                                status := none }) ∧
    (∀ fr2 : FetchResult (List ScenarioInfo), apiGetScenarios fr2 = fetchJSON fr2) ∧
    (∀ fr2 : FetchResult RunResult, apiRunScenario fr2 = fetchJSON fr2) ∧
    (∀ fr2 : FetchResult (List RunResult), apiGetAllRuns fr2 = fetchJSON fr2) ∧
    (∀ fr2 : FetchResult RunResult, apiGetRun fr2 = fetchJSON fr2) ∧
    (∀ (fr2 : FetchResult Unit) e, apiDeleteRun fr2 = .error e →
        fetchJSON fr2 = .error e) ∧
    (∀ (fr2 : FetchResult Unit) e, apiClearAllRuns fr2 = .error e →
        fetchJSON fr2 = .error e) ∧
    (∀ fr2 : FetchResult DeviceStatus, apiGetDeviceStatus fr2 = fetchJSON fr2) := by
  refine ⟨?_, ?_, ?_, ?_, fun _ => rfl, fun _ => rfl, fun _ => rfl, fun _ => rfl,
          ?_, ?_, fun _ => rfl⟩
  · intro e he
    rcases fr with ⟨ok, st, stext, body⟩ | msg
    · cases ok
      · simp [fetchJSON] at he
        rw [← he]
      · rcases body with v | m
        · simp [fetchJSON] at he
          rw [← he]
        · simp [fetchJSON] at he
    · simp [fetchJSON] at he
      rw [← he]
  · intro st stext body hfr
    rw [hfr]; simp [fetchJSON]
  · intro msg hfr
    rw [hfr]; simp [fetchJSON]
  · intro st stext msg hfr
    rw [hfr]; simp [fetchJSON]
  · intro fr2 e he
    rcases hj : fetchJSON fr2 with v | e2 <;>
      simp [apiDeleteRun, hj, Except.map] at he
    rw [he]
  · intro fr2 e he
    rcases hj : fetchJSON fr2 with v | e2 <;>
      simp [apiClearAllRuns, hj, Except.map] at he
    rw [he]

/-- Witness for C8: a thrown network failure is wrapped as an APIError whose
message begins with `Network error:`. -/
theorem c8_api_rejects_only_apierror_witness :
    fetchJSON (T := Unit) (.failure "connection refused")
        = .error { name := "APIError",
                   message := "Network error: connection refused",
                   status := none } :=
  (c8_api_rejects_only_apierror (T := Unit)
      (.failure "connection refused")).2.2.1 "connection refused" rfl

/-- The push loop of `getStateTransitions` is the starting list followed by
the states contributed by the steps. -/
lemma transitions_foldl_eq (steps : List StepResult) :
    ∀ init : List DeviceState,
      steps.foldl
        (fun states step =>
          match stepPushedState step with
          | some s => states ++ [s]
          | none => states) init
        = init ++ steps.filterMap stepPushedState := by
  induction steps with
  | nil => intro init; simp
  | cons s rest ih =>
      intro init
      rw [List.foldl_cons, List.filterMap_cons]
      cases h : stepPushedState s
      · simp only [h]
        rw [ih init]
      · simp only [h]
        rw [ih (init ++ [_])]
        simp

/-- `getStateTransitions` on an actual RunResult: `IDLE` followed by the
states contributed by the command steps. -/
lemma getStateTransitions_some (r : RunResult) :
    getStateTransitions (some r)
      = .IDLE :: r.step_results.filterMap stepPushedState := by
  rw [getStateTransitions, transitions_foldl_eq]
  simp

/-- C9: `getStateTransitions` always returns a non-empty list starting with
`IDLE`, so `getCurrentState` (the last-element access) is always defined —
including for a null RunResult; the timeline is blind to step status
(overwriting every status leaves it unchanged), and a command step whose
`details.action` is one of the device commands appends a state even when its
status is `error`. -/
theorem c9_visualizer_total_and_status_blind :
    (∀ rr : Option RunResult,
        getStateTransitions rr ≠ [] ∧
        (getStateTransitions rr).head? = some .IDLE ∧
        (∃ s, getCurrentState rr = some s)) ∧
    (∀ (r : RunResult) (o : Outcome),
        getStateTransitions (some { r with
          step_results := r.step_results.map (fun s => { s with status := o }) })
          = getStateTransitions (some r)) ∧
    (∀ (r : RunResult) (step : StepResult),
        step.step_type = "command" →
        (step.details.lookup "action" = some (.vstr "activate") ∨
         step.details.lookup "action" = some (.vstr "reset") ∨
         step.details.lookup "action" = some (.vstr "inject_fault")) →
        (getStateTransitions (some { r with
            step_results := r.step_results ++ [step] })).length
          = (getStateTransitions (some r)).length + 1) := by
  refine ⟨?_, ?_, ?_⟩
  · intro rr
    rcases rr with _ | r
    · exact ⟨by simp [getStateTransitions], rfl, ⟨.IDLE, rfl⟩⟩
    · rw [getCurrentState, getStateTransitions_some]
      refine ⟨by simp, rfl, ?_⟩
      rcases hq : (DeviceState.IDLE ::
          r.step_results.filterMap stepPushedState).getLast? with _ | s
      · simp at hq
      · exact ⟨s, rfl⟩
  · intro r o
    rw [getStateTransitions_some, getStateTransitions_some]
    simp only [List.filterMap_map]
    have hco : (stepPushedState ∘ fun s => { s with status := o })
        = stepPushedState := funext (fun s => rfl)
    rw [hco]
  · intro r step hty hact
    have hsome : ∃ st, stepPushedState step = some st := by
      rcases hact with h | h | h
      · exact ⟨.ACTIVE, by simp [stepPushedState, hty, h]⟩
      · exact ⟨.IDLE, by simp [stepPushedState, hty, h]⟩
      · exact ⟨.FAULT, by simp [stepPushedState, hty, h]⟩
    rcases hsome with ⟨st, hst⟩
    rw [getStateTransitions_some, getStateTransitions_some]
    simp [List.filterMap_append, hst]

/-- A command step whose status is `error`, as the dashboard receives it. -/
def errorCommandStep : StepResult :=
  { step_number := 1, step_type := "command", status := .error,
    message := "InvalidStateTransitionError",
    details := [("action", .vstr "activate")], duration_ms := 0 }

/-- A RunResult with no recorded steps, as the dashboard receives it. -/
def emptyRun : RunResult :=
  { run_id := "r0", scenario_name := "s", description := "",
    start_time := 0, end_time := some 0, duration_ms := 0,
    overall_status := .error, error_message := none,
    total_steps := 0, passed_steps := 0, failed_steps := 0,
    step_results := [] }

/-- Witness for C9: appending a command step whose status is `error` still
advances the displayed state timeline by one. -/
theorem c9_visualizer_total_and_status_blind_witness :
    (getStateTransitions (some { emptyRun with
        step_results := emptyRun.step_results ++ [errorCommandStep] })).length
      = (getStateTransitions (some emptyRun)).length + 1 :=
  c9_visualizer_total_and_status_blind.2.2 emptyRun errorCommandStep rfl
    (Or.inl (by decide))

end Relaysim
